import Mathlib

/-!
Shallow embedding of the express-jwtoken core engine
(src/lib/main/jwtEngine.ts) and verification of its specification claims.

The engine orchestrates a sign/verify lifecycle over two external
collaborators: a Signer (the jsonwebtoken library, modelled abstractly as a
pair of total functions into Except) and a ClientTokenEngine (the token
transport; its variant sources are not under src/, so its state effect is
modelled from the spec's transport contract, section 4.2).

Effects on the mutable request/response objects are made explicit: every
operation is a pure function from the prior Request and transport state to
the resulting ones, together with a record of the observable calls it made
(hook invocations, removeToken / setToken calls) so that claims about
side channels can be stated.
-/

/-- A JWT payload: an open record of claims supplied by the caller
(source type Record of string to any); modelled as an association list of
claim names to string values. -/
abbrev Payload := List (String × String)

/-- The per-request fields the engine writes: req.token (the decoded payload,
null when absent or invalid) and req.signedToken (the raw signed token string,
null when absent). From the express module augmentation in jwtEngine.ts. -/
structure Request where
  token : Option Payload
  signedToken : Option String
deriving Repr, DecidableEq

/-- Modelled from the spec: the ClientTokenEngine (token transport) state.
The transport variant sources (clientTokenEngine directory) are not under
src/; the spec's transport contract (section 4.2) specifies get/set/remove
over a client-side store of the primary signed token, and section 4.3 a
paired modifier token whose lifecycle mirrors the primary one. `stored` is
the token the client would present on the request; `modifier` the paired
modifier token. -/
structure TransportState where
  stored : Option String
  modifier : Option String
deriving Repr, DecidableEq

/-- Modelled from the spec: transport get(request), returns the stored
primary token or null; must not throw for absence. -/
def getToken (ts : TransportState) : Option String := ts.stored

/-- Modelled from the spec: transport set(signedToken, payload, response),
persists the token for the client to return on subsequent requests. -/
def setToken (signedTok : String) (ts : TransportState) : TransportState :=
  { ts with stored := some signedTok }

/-- Modelled from the spec: transport remove(response), instructs the client
to stop sending the token and clears any local state; the paired modifier
token is destroyed alongside (section 4.3: its lifecycle mirrors the
primary token's). -/
def removeToken (_ts : TransportState) : TransportState :=
  { stored := none, modifier := none }

/-- The opaque Signer capability (the jsonwebtoken library, an external
collaborator specified at its interface boundary): sign(payload) yields a
signed token or a signing error; verify(token) yields the decoded payload
or a verification error. The callback-based asynchronous calls of the
source are modelled as total functions into Except. -/
structure Signer where
  sign : Payload → Except String String
  verify : String → Except String Payload

/-- The full observable outcome of JwtEngine.verify: the resulting request
fields, the resulting transport state, the raw tokens passed to the
onNotValidToken hook, the number of transport removeToken calls, and
whether the Signer's verify was invoked. verify never returns an error
channel: verification failures are recovered locally. -/
structure VerifyResult where
  req : Request
  transport : TransportState
  hookCalls : List String
  removeCalls : Nat
  signerCalled : Bool
deriving Repr, DecidableEq

/-- Embedding of JwtEngine.verify (jwtEngine.ts lines 139-161): ask the
transport for the signed token; if absent set both request fields to null;
if present record it as req.signedToken, then attempt Signer verification;
on success store the decoded payload as req.token; on failure set req.token
to null, call the transport's removeToken on the response and invoke the
onNotValidToken hook with the raw signed token. The return type has no
error channel: the catch block recovers every verification error. -/
def JwtEngine.verify (signer : Signer) (req : Request) (ts : TransportState) : VerifyResult :=
  match getToken ts with
  | some signedTok =>
    let req1 : Request := { req with signedToken := some signedTok }
    match signer.verify signedTok with
    | Except.ok payload =>
        { req := { req1 with token := some payload }, transport := ts,
          hookCalls := [], removeCalls := 0, signerCalled := true }
    | Except.error _ =>
        { req := { req1 with token := none }, transport := removeToken ts,
          hookCalls := [signedTok], removeCalls := 1, signerCalled := true }
  | none =>
      { req := { req with signedToken := none, token := none }, transport := ts,
        hookCalls := [], removeCalls := 0, signerCalled := false }

/-- The full observable outcome of JwtEngine.sign: the resulting request
fields and transport state, the returned value (the signed token string, or
the propagated signing error), and the number of transport setToken calls. -/
structure SignOutcome where
  req : Request
  transport : TransportState
  result : Except String String
  setCalls : Nat
deriving Repr

/-- Embedding of JwtEngine.sign (jwtEngine.ts lines 121-132), the
implementation behind res.authenticate: call the Signer's sign on the
payload; if it errors, the awaited promise rejects and the error propagates
before any assignment, leaving request and transport untouched; on success
assign req.token and req.signedToken, persist the signed token to the
response via the transport's setToken, and return the signed token. -/
def JwtEngine.sign (signer : Signer) (payload : Payload) (req : Request) (ts : TransportState) : SignOutcome :=
  match signer.sign payload with
  | Except.error e =>
      { req := req, transport := ts, result := Except.error e, setCalls := 0 }
  | Except.ok signedTok =>
      { req := { req with token := some payload, signedToken := some signedTok },
        transport := setToken signedTok ts,
        result := Except.ok signedTok, setCalls := 1 }

/-- Embedding of res.deauthenticate (jwtEngine.ts lines 101-105): set
req.token and req.signedToken to null, then have the transport remove the
token from the response. -/
def deauthenticate (req : Request) (ts : TransportState) : Request × TransportState :=
  ({ req with token := none, signedToken := none }, removeToken ts)

/-- The user-facing JwtEngineOptions record consumed by processOptions:
every field optional (source fields typed string, undefined when absent). -/
structure JwtEngineOptions where
  publicKey : Option String
  privateKey : Option String
  secretKey : Option String
  algorithm : Option String
  expiresIn : Option String
  notBefore : Option String
deriving Repr

/-- The internal options returned by processOptions: keys and algorithm
resolved, defaults applied. -/
structure InternalJwtEngineOptions where
  publicKey : String
  privateKey : String
  algorithm : String
  expiresIn : String
  notBefore : Option String
deriving Repr, DecidableEq

/-- JavaScript truthiness of an optional string: undefined and the empty
string are falsy, every other string truthy. -/
def truthy : Option String → Bool
  | none => false
  | some s => s != ""

/-- JavaScript a short-circuit-or b for an optional string a and a default
b: yields a's value when a is truthy, otherwise the default. -/
def jsOr (o : Option String) (d : String) : String :=
  if truthy o then o.getD "" else d

/-- Embedding of JwtEngine.processOptions (jwtEngine.ts lines 167-187).
`generatedKey` stands for the random 32-byte hex key produced by
crypto.randomBytes at the single processOptions call the constructor makes,
so it is fixed once per engine instance. When publicKey and privateKey are
not both (truthily) supplied, the secret key (the supplied one if truthy,
otherwise the generated one) becomes both keys. -/
def JwtEngine.processOptions (generatedKey : String) (options : JwtEngineOptions) : InternalJwtEngineOptions :=
  if truthy options.publicKey && truthy options.privateKey then
    { publicKey := options.publicKey.getD "",
      privateKey := options.privateKey.getD "",
      algorithm := jsOr options.algorithm "HS256",
      expiresIn := jsOr options.expiresIn "1 day",
      notBefore := options.notBefore }
  else
    { publicKey := jsOr options.secretKey generatedKey,
      privateKey := jsOr options.secretKey generatedKey,
      algorithm := jsOr options.algorithm "HS256",
      expiresIn := jsOr options.expiresIn "1 day",
      notBefore := options.notBefore }

/-- A request with no resolved state, for concrete instantiations. -/
def reqEmpty : Request := { token := none, signedToken := none }

/-- A transport state holding the signed token "tok". -/
def tsTok : TransportState := { stored := some "tok", modifier := none }

/-- A transport state holding no token. -/
def tsEmpty : TransportState := { stored := none, modifier := none }

/-- A Signer that rejects every sign and every verify call. -/
def badSigner : Signer :=
  { sign := fun _ => Except.error "sigfail",
    verify := fun _ => Except.error "bad" }

/-- Sample payload A. -/
def pA : Payload := [("user", "a")]

/-- Sample payload B. -/
def pB : Payload := [("user", "b")]

/-- A Signer that signs the two sample payloads to distinct tokens and
verifies those tokens back to their payloads. -/
def okSigner : Signer :=
  { sign := fun p =>
      if p = pA then Except.ok "tokA"
      else if p = pB then Except.ok "tokB"
      else Except.error "unknown",
    verify := fun s =>
      if s = "tokA" then Except.ok pA
      else if s = "tokB" then Except.ok pB
      else Except.error "invalid" }

/-- C1: when the transport holds a signed token that the Signer rejects,
verify resolves the request to Invalid (req.token null, req.signedToken the
presented raw token), removes the token from the transport via a single
removeToken call on the response, and invokes the onNotValidToken hook with
exactly the raw signed token; the verification error never propagates, as
verify's return type carries no error channel. -/
theorem claim_C1 (signer : Signer) (req : Request) (ts : TransportState)
    (rawTok e : String)
    (hts : ts.stored = some rawTok) (hv : signer.verify rawTok = Except.error e) :
    (JwtEngine.verify signer req ts).req.token = none ∧
    (JwtEngine.verify signer req ts).req.signedToken = some rawTok ∧
    (JwtEngine.verify signer req ts).removeCalls = 1 ∧
    (JwtEngine.verify signer req ts).transport = removeToken ts ∧
    (JwtEngine.verify signer req ts).hookCalls = [rawTok] := by
  simp [JwtEngine.verify, getToken, hts, hv]

/-- C1 witness: a rejecting Signer on a transport holding "tok". -/
theorem claim_C1_witness :
    (JwtEngine.verify badSigner reqEmpty tsTok).req.token = none ∧
    (JwtEngine.verify badSigner reqEmpty tsTok).req.signedToken = some "tok" ∧
    (JwtEngine.verify badSigner reqEmpty tsTok).removeCalls = 1 ∧
    (JwtEngine.verify badSigner reqEmpty tsTok).transport = removeToken tsTok ∧
    (JwtEngine.verify badSigner reqEmpty tsTok).hookCalls = ["tok"] :=
  claim_C1 badSigner reqEmpty tsTok "tok" "bad" rfl rfl

/-- C2: for every payload the Signer accepts (sign succeeds and verify
inverts it), authenticate followed by verify on the transport state that
authenticate produced resolves the request to Authenticated with the same
decoded payload. -/
theorem claim_C2 (signer : Signer) (P : Payload) (req : Request) (ts : TransportState)
    (st : String)
    (hs : signer.sign P = Except.ok st) (hv : signer.verify st = Except.ok P) :
    (JwtEngine.verify signer (JwtEngine.sign signer P req ts).req
      (JwtEngine.sign signer P req ts).transport).req.token = some P ∧
    (JwtEngine.verify signer (JwtEngine.sign signer P req ts).req
      (JwtEngine.sign signer P req ts).transport).req.signedToken = some st := by
  simp [JwtEngine.sign, hs, JwtEngine.verify, getToken, setToken, hv]

/-- C2 witness: the sample Signer round-trips payload pA through "tokA". -/
theorem claim_C2_witness :
    (JwtEngine.verify okSigner (JwtEngine.sign okSigner pA reqEmpty tsEmpty).req
      (JwtEngine.sign okSigner pA reqEmpty tsEmpty).transport).req.token = some pA ∧
    (JwtEngine.verify okSigner (JwtEngine.sign okSigner pA reqEmpty tsEmpty).req
      (JwtEngine.sign okSigner pA reqEmpty tsEmpty).transport).req.signedToken = some "tokA" :=
  claim_C2 okSigner pA reqEmpty tsEmpty "tokA" rfl rfl

/-- C3: authenticate calls the Signer's sign; on success it sets req.token
to the payload and req.signedToken to the signed token, persists the signed
token via one setToken call, and returns the signed token string; on Signer
failure the error is propagated as the result, not swallowed. -/
theorem claim_C3 (signer : Signer) (P : Payload) (req : Request) (ts : TransportState) :
    (∀ st, signer.sign P = Except.ok st →
      (JwtEngine.sign signer P req ts).req.token = some P ∧
      (JwtEngine.sign signer P req ts).req.signedToken = some st ∧
      (JwtEngine.sign signer P req ts).transport = setToken st ts ∧
      (JwtEngine.sign signer P req ts).setCalls = 1 ∧
      (JwtEngine.sign signer P req ts).result = Except.ok st) ∧
    (∀ e, signer.sign P = Except.error e →
      (JwtEngine.sign signer P req ts).result = Except.error e) := by
  constructor
  · intro st hs
    simp [JwtEngine.sign, hs]
  · intro e he
    simp [JwtEngine.sign, he]

/-- C3 witness: signing pA with the sample Signer, and signing with the
rejecting Signer. -/
theorem claim_C3_witness :
    ((JwtEngine.sign okSigner pA reqEmpty tsEmpty).req.token = some pA ∧
     (JwtEngine.sign okSigner pA reqEmpty tsEmpty).req.signedToken = some "tokA" ∧
     (JwtEngine.sign okSigner pA reqEmpty tsEmpty).transport = setToken "tokA" tsEmpty ∧
     (JwtEngine.sign okSigner pA reqEmpty tsEmpty).setCalls = 1 ∧
     (JwtEngine.sign okSigner pA reqEmpty tsEmpty).result = Except.ok "tokA") ∧
    (JwtEngine.sign badSigner pA reqEmpty tsEmpty).result = Except.error "sigfail" :=
  ⟨(claim_C3 okSigner pA reqEmpty tsEmpty).1 "tokA" rfl,
   (claim_C3 badSigner pA reqEmpty tsEmpty).2 "sigfail" rfl⟩

/-- C4: when the transport holds no token, verify resolves the request to
Unauthenticated: both req.token and req.signedToken become null, the
Signer's verify is not called, the transport is untouched with no
removeToken calls, and the invalid-token hook is not invoked. -/
theorem claim_C4 (signer : Signer) (req : Request) (ts : TransportState)
    (hts : ts.stored = none) :
    (JwtEngine.verify signer req ts).req.token = none ∧
    (JwtEngine.verify signer req ts).req.signedToken = none ∧
    (JwtEngine.verify signer req ts).signerCalled = false ∧
    (JwtEngine.verify signer req ts).transport = ts ∧
    (JwtEngine.verify signer req ts).removeCalls = 0 ∧
    (JwtEngine.verify signer req ts).hookCalls = [] := by
  simp [JwtEngine.verify, getToken, hts]

/-- C4 witness: verify on an empty transport. -/
theorem claim_C4_witness :
    (JwtEngine.verify okSigner reqEmpty tsEmpty).req.token = none ∧
    (JwtEngine.verify okSigner reqEmpty tsEmpty).req.signedToken = none ∧
    (JwtEngine.verify okSigner reqEmpty tsEmpty).signerCalled = false ∧
    (JwtEngine.verify okSigner reqEmpty tsEmpty).transport = tsEmpty ∧
    (JwtEngine.verify okSigner reqEmpty tsEmpty).removeCalls = 0 ∧
    (JwtEngine.verify okSigner reqEmpty tsEmpty).hookCalls = [] :=
  claim_C4 okSigner reqEmpty tsEmpty rfl

/-- C5: after verify, the resolved state distinguishes Invalid from
Unauthenticated: a non-null req.token implies a non-null req.signedToken;
whenever a raw token was presented, req.signedToken equals it (so Invalid
keeps the presented token); and when none was presented, both fields are
null. -/
theorem claim_C5 (signer : Signer) (req : Request) (ts : TransportState) :
    ((JwtEngine.verify signer req ts).req.token.isSome →
      (JwtEngine.verify signer req ts).req.signedToken.isSome) ∧
    (∀ rawTok, ts.stored = some rawTok →
      (JwtEngine.verify signer req ts).req.signedToken = some rawTok) ∧
    (ts.stored = none →
      (JwtEngine.verify signer req ts).req.token = none ∧
      (JwtEngine.verify signer req ts).req.signedToken = none) := by
  cases hts : ts.stored with
  | none =>
      simp [JwtEngine.verify, getToken, hts]
  | some rawTok =>
      cases hv : signer.verify rawTok with
      | ok payload => simp [JwtEngine.verify, getToken, hts, hv]
      | error e => simp [JwtEngine.verify, getToken, hts, hv]

/-- C5 witness: with a rejecting Signer and a presented token "tok", the
signed token is kept while the decoded token is null. -/
theorem claim_C5_witness :
    (JwtEngine.verify badSigner reqEmpty tsTok).req.signedToken = some "tok" :=
  (claim_C5 badSigner reqEmpty tsTok).2.1 "tok" rfl

/-- C6: deauthenticate clears the resolved state (req.token and
req.signedToken become null) and has the transport remove the token from
the response, which clears the stored primary token and the paired modifier
token. -/
theorem claim_C6 (req : Request) (ts : TransportState) :
    (deauthenticate req ts).1.token = none ∧
    (deauthenticate req ts).1.signedToken = none ∧
    (deauthenticate req ts).2 = removeToken ts ∧
    (deauthenticate req ts).2.stored = none ∧
    (deauthenticate req ts).2.modifier = none := by
  simp [deauthenticate, removeToken]

/-- C7: deauthenticate followed immediately by verify on the transport
state it produced always resolves the request to Unauthenticated: both
req.token and req.signedToken are null, whatever the Signer and the prior
state. -/
theorem claim_C7 (signer : Signer) (req : Request) (ts : TransportState) :
    (JwtEngine.verify signer (deauthenticate req ts).1 (deauthenticate req ts).2).req.token = none ∧
    (JwtEngine.verify signer (deauthenticate req ts).1 (deauthenticate req ts).2).req.signedToken = none := by
  simp [deauthenticate, removeToken, JwtEngine.verify, getToken]

/-- C8: when publicKey and privateKey are not both (truthily) supplied, the
internal options use one symmetric key as both keys: the supplied secretKey
when truthy, otherwise the per-instance generated key; in particular
publicKey equals privateKey. -/
theorem claim_C8 (generatedKey : String) (options : JwtEngineOptions)
    (h : (truthy options.publicKey && truthy options.privateKey) = false) :
    (JwtEngine.processOptions generatedKey options).publicKey =
      (JwtEngine.processOptions generatedKey options).privateKey ∧
    (JwtEngine.processOptions generatedKey options).publicKey =
      (if truthy options.secretKey then options.secretKey.getD "" else generatedKey) := by
  simp [JwtEngine.processOptions, h, jsOr]

/-- C8 witness: options with no keys supplied resolve both keys to the
generated key. -/
theorem claim_C8_witness :
    (JwtEngine.processOptions "genkey"
      { publicKey := none, privateKey := none, secretKey := none,
        algorithm := none, expiresIn := none, notBefore := none }).publicKey =
    (JwtEngine.processOptions "genkey"
      { publicKey := none, privateKey := none, secretKey := none,
        algorithm := none, expiresIn := none, notBefore := none }).privateKey ∧
    (JwtEngine.processOptions "genkey"
      { publicKey := none, privateKey := none, secretKey := none,
        algorithm := none, expiresIn := none, notBefore := none }).publicKey =
    (if truthy (none : Option String) then (none : Option String).getD "" else "genkey") :=
  claim_C8 "genkey"
    { publicKey := none, privateKey := none, secretKey := none,
      algorithm := none, expiresIn := none, notBefore := none } rfl

/-- C9: authenticating with payload P1 and then with payload P2 on the same
request leaves the resolved payload exactly P2: the fresh sign fully
replaces the prior payload, never merging P1 into it. -/
theorem claim_C9 (signer : Signer) (P1 P2 : Payload) (req : Request) (ts : TransportState)
    (st1 st2 : String)
    (h1 : signer.sign P1 = Except.ok st1) (h2 : signer.sign P2 = Except.ok st2) :
    (JwtEngine.sign signer P2 (JwtEngine.sign signer P1 req ts).req
      (JwtEngine.sign signer P1 req ts).transport).req.token = some P2 ∧
    (JwtEngine.sign signer P2 (JwtEngine.sign signer P1 req ts).req
      (JwtEngine.sign signer P1 req ts).transport).req.signedToken = some st2 := by
  simp [JwtEngine.sign, h1, h2]

/-- C9 witness: signing pA then pB leaves exactly pB resolved. -/
theorem claim_C9_witness :
    (JwtEngine.sign okSigner pB (JwtEngine.sign okSigner pA reqEmpty tsEmpty).req
      (JwtEngine.sign okSigner pA reqEmpty tsEmpty).transport).req.token = some pB ∧
    (JwtEngine.sign okSigner pB (JwtEngine.sign okSigner pA reqEmpty tsEmpty).req
      (JwtEngine.sign okSigner pA reqEmpty tsEmpty).transport).req.signedToken = some "tokB" :=
  claim_C9 okSigner pA pB reqEmpty tsEmpty "tokA" "tokB" rfl rfl

/-- C10: when the Signer's sign fails, JwtEngine.sign leaves the request
and the transport state entirely unchanged and never calls setToken: the
error is raised before any assignment, so a failed authenticate is
atomic. -/
theorem claim_C10 (signer : Signer) (P : Payload) (req : Request) (ts : TransportState)
    (e : String) (he : signer.sign P = Except.error e) :
    (JwtEngine.sign signer P req ts).req = req ∧
    (JwtEngine.sign signer P req ts).transport = ts ∧
    (JwtEngine.sign signer P req ts).setCalls = 0 ∧
    (JwtEngine.sign signer P req ts).result = Except.error e := by
  simp [JwtEngine.sign, he]

/-- C10 witness: a failing sign on a request that already holds state
leaves that state intact. -/
theorem claim_C10_witness :
    (JwtEngine.sign badSigner pA { token := some pA, signedToken := some "old" } tsTok).req =
      { token := some pA, signedToken := some "old" } ∧
    (JwtEngine.sign badSigner pA { token := some pA, signedToken := some "old" } tsTok).transport = tsTok ∧
    (JwtEngine.sign badSigner pA { token := some pA, signedToken := some "old" } tsTok).setCalls = 0 ∧
    (JwtEngine.sign badSigner pA { token := some pA, signedToken := some "old" } tsTok).result =
      Except.error "sigfail" :=
  claim_C10 badSigner pA { token := some pA, signedToken := some "old" } tsTok "sigfail" rfl
